import Mathlib

/-
Shallow embedding of src/notion_mirror_sync.py: a one-way Master -> Mirror
synchronization script for two remote databases.  Remote pages are modelled
as structured values mirroring the JSON shapes the script reads; the remote
write calls issued by the main loop are modelled as an explicit call trace,
and a write failure is modelled as an Except error that propagates exactly
where a Python exception would.
-/

namespace NotionSync

/-! ## Config constants (header of the script) -/

def PROP_ACTIVITY : String := "Activity"

def PROP_STATUS : String := "Status"

def PROP_START_DATE : String := "Start Date"

def PROP_DUE_DATE : String := "Due Date"

def PROP_PRIORITY : String := "Priority"

def PROP_RAISED_BY : String := "Raised By"

def PROP_ASSIGNED_TO : String := "Assigned To"

/-- Run configuration: the STATUS_MAP rename table (module constant, empty by
default, meant to be edited) and the optional STATUS_FALLBACK label
(None by default).  Both are module-level constants in the script; the claims
quantify over their configured values, so they are parameters here. -/
structure Config where
  STATUS_MAP : List (String × String)
  STATUS_FALLBACK : Option String
  deriving DecidableEq

/-! ## Remote data model -/

/-- Value of a select or status property: the dict under the type key,
or none when the value is null; the dict may lack a name key. -/
structure ChoiceVal where
  name : Option String
  deriving DecidableEq

/-- One user object of a people property: the name key may be absent or
empty, the id key is always present. -/
structure UserObj where
  name : Option String
  id : String
  deriving DecidableEq

/-- A date value object (the dict under the date key of a date property).
The script passes it through opaquely, so only equality matters. -/
structure DateObj where
  start : String
  stop : Option String
  deriving DecidableEq

/-- One rich-text part of a title property; plain_text may be absent,
in which case the script reads it with default empty string. -/
structure TitlePart where
  plain_text : Option String
  deriving DecidableEq

/-- A page property object as returned by the remote store, discriminated by
its type key.  Variants the script never reads fall under other. -/
inductive MasterProp where
  | select (val : Option ChoiceVal)
  | status (val : Option ChoiceVal)
  | date (val : Option DateObj)
  | people (users : List UserObj)
  | title (parts : List TitlePart)
  | other
  deriving DecidableEq

/-- A remote page: opaque identifier plus its properties dict
(association list with unique keys, in insertion order). -/
structure Page where
  id : String
  properties : List (String × MasterProp)
  deriving DecidableEq

/-- Python dict.get for an association list: first binding of the key. -/
def dictGet {α : Type} : List (String × α) → String → Option α
  | [], _ => none
  | p :: rest, k => if p.1 = k then some p.2 else dictGet rest k

/-! ## Helper functions of the script -/

/-- prop_or_none: page.get("properties", dict()).get(name). -/
def prop_or_none (page : Page) (name : String) : Option MasterProp :=
  dictGet page.properties name

/-- read_choice_name: the name of a select or status value, or None. -/
def read_choice_name (prop : Option MasterProp) : Option String :=
  match prop with
  | some (.select val) => val.bind (fun c => c.name)
  | some (.status val) => val.bind (fun c => c.name)
  | _ => none

/-- Label of one user: name if truthy, else id (u.get("name") or u.get("id")). -/
def userLabel (u : UserObj) : String :=
  match u.name with
  | some s => if s = "" then u.id else s
  | none => u.id

/-- read_people_names: display names (or ids) of a people property,
keeping only truthy labels; empty list for a non-people property. -/
def read_people_names (prop : Option MasterProp) : List String :=
  match prop with
  | some (.people users) => (users.map userLabel).filter (fun n => n ≠ "")
  | _ => []

/-- Python str.strip: remove leading and trailing whitespace characters. -/
def py_strip (s : String) : String :=
  ⟨((s.data.dropWhile Char.isWhitespace).reverse.dropWhile Char.isWhitespace).reverse⟩

/-- Python str.lower: lower-case every character. -/
def py_lower (s : String) : String :=
  ⟨s.data.map Char.toLower⟩

/-- get_title_text: concatenation of the plain_text parts of a title
property, stripped of surrounding whitespace; empty string when the
property is missing or not of title type. -/
def get_title_text (page : Page) (title_prop_name : String) : String :=
  match prop_or_none page title_prop_name with
  | some (.title parts) =>
      py_strip (String.join (parts.map (fun t => t.plain_text.getD "")))
  | _ => ""

/-- Python dict assignment idx[k] = v for the mirror index: replace the
binding in place if the key is present, else append (insertion order). -/
def dict_set (d : List (String × String)) (k v : String) : List (String × String) :=
  if (dictGet d k).isSome then
    d.map (fun p => if p.1 = k then (k, v) else p)
  else d ++ [(k, v)]

/-- build_mirror_index_by_activity: index from lower-cased title text to page
id, skipping pages with an empty title; later pages overwrite earlier ones. -/
def build_mirror_index_by_activity (mirror_pages : List Page) : List (String × String) :=
  mirror_pages.foldl
    (fun idx p =>
      if get_title_text p PROP_ACTIVITY ≠ "" then
        dict_set idx (py_lower (get_title_text p PROP_ACTIVITY)) p.id
      else idx)
    []

/-! ## Payload fragments -/

/-- A destination-shaped payload fragment for one field.  select and status
carry an optional name (none models a null value, i.e. a clear);
multi_select carries the list of option names; date carries the
pass-through date value; title carries the text content. -/
inductive PayloadValue where
  | select (name : Option String)
  | multi_select (names : List String)
  | status (name : Option String)
  | date (val : Option DateObj)
  | title (content : String)
  deriving DecidableEq

/-- Python truthiness of an optional string: None and the empty string are
falsy.  Used wherever the script writes (expr if name else other). -/
def truthy_str (s : Option String) : Option String :=
  match s with
  | some v => if v = "" then none else some v
  | none => none

/-- coerce_choice_payload: payload for choice-like properties depending on
the Mirror type; none for an unsupported type (the Python function returns
None there, and every produced dict is non-empty hence truthy). -/
def coerce_choice_payload (name : Option String) (mirror_type : String) : Option PayloadValue :=
  if mirror_type = "select" then
    some (.select (truthy_str name))
  else if mirror_type = "multi_select" then
    some (.multi_select (match truthy_str name with | some n => [n] | none => []))
  else if mirror_type = "status" then
    some (.status (truthy_str name))
  else none

/-- Membership test of the Python warning set missing_status_names,
modelled as a duplicate-free list in insertion order; set.add. -/
def setAdd (s : List String) (x : String) : List String :=
  if x ∈ s then s else s ++ [x]

/-- Lookup in STATUS_MAP: if name in STATUS_MAP then STATUS_MAP[name]. -/
def apply_status_map (cfg : Config) (name : Option String) : Option String :=
  match name with
  | some s =>
      match dictGet cfg.STATUS_MAP s with
      | some t => some t
      | none => some s
  | none => none

/-! ## extract_sync_properties_from_master, section by section -/

/-- STATUS section: read the choice name, apply STATUS_MAP, validate against
the allowed options when the Mirror type is status (fall back or clear and
record the missing name), then coerce.  Returns the optional entry for the
Status key together with the updated warning set. -/
def status_field (cfg : Config) (master_page : Page)
    (mirror_schema_types : List (String × String))
    (mirror_allowed : List (String × List String))
    (missing : List String) :
    Option (String × PayloadValue) × List String :=
  match dictGet mirror_schema_types PROP_STATUS with
  | none => (none, missing)
  | some mt =>
    let name1 := apply_status_map cfg (read_choice_name (prop_or_none master_page PROP_STATUS))
    let allowed := (dictGet mirror_allowed PROP_STATUS).getD []
    let step : Option String × List String :=
      match name1 with
      | some n =>
          if mt = "status" ∧ n ∉ allowed then
            match cfg.STATUS_FALLBACK with
            | some fb =>
                if fb ≠ "" ∧ fb ∈ allowed then (some fb, missing)
                else (none, setAdd missing n)
            | none => (none, setAdd missing n)
          else (some n, missing)
      | none => (none, missing)
    match coerce_choice_payload step.1 mt with
    | some pv => (some (PROP_STATUS, pv), step.2)
    | none => (none, step.2)

/-- START DATE and DUE DATE sections (identical up to the property name):
pass the date value through when the master property is a date and the
mirror declares the field with type date; otherwise omit. -/
def date_field (master_page : Page)
    (mirror_schema_types : List (String × String)) (prop_name : String) :
    Option (String × PayloadValue) :=
  match dictGet mirror_schema_types prop_name with
  | none => none
  | some mt =>
    match prop_or_none master_page prop_name with
    | some (.date v) => if mt = "date" then some (prop_name, .date v) else none
    | _ => none

/-- PRIORITY section: select branch first, then multi_select. -/
def priority_field (master_page : Page)
    (mirror_schema_types : List (String × String)) :
    Option (String × PayloadValue) :=
  match dictGet mirror_schema_types PROP_PRIORITY with
  | none => none
  | some mt =>
    let name := read_choice_name (prop_or_none master_page PROP_PRIORITY)
    if mt = "select" then some (PROP_PRIORITY, .select (truthy_str name))
    else if mt = "multi_select" then
      some (PROP_PRIORITY, .multi_select (match truthy_str name with | some n => [n] | none => []))
    else none

/-- RAISED BY section: multi_select branch first, then select. -/
def raised_by_field (master_page : Page)
    (mirror_schema_types : List (String × String)) :
    Option (String × PayloadValue) :=
  match dictGet mirror_schema_types PROP_RAISED_BY with
  | none => none
  | some mt =>
    let name := read_choice_name (prop_or_none master_page PROP_RAISED_BY)
    if mt = "multi_select" then
      some (PROP_RAISED_BY, .multi_select (match truthy_str name with | some n => [n] | none => []))
    else if mt = "select" then some (PROP_RAISED_BY, .select (truthy_str name))
    else none

/-- ASSIGNED TO section: people names to multi_select, or first name to
select; skip for an unsupported mirror type. -/
def assigned_to_field (master_page : Page)
    (mirror_schema_types : List (String × String)) :
    Option (String × PayloadValue) :=
  match dictGet mirror_schema_types PROP_ASSIGNED_TO with
  | none => none
  | some mt =>
    let names := read_people_names (prop_or_none master_page PROP_ASSIGNED_TO)
    if mt = "multi_select" then some (PROP_ASSIGNED_TO, .multi_select names)
    else if mt = "select" then some (PROP_ASSIGNED_TO, .select (truthy_str names.head?))
    else none

/-- Optional entry as a (zero- or one-element) piece of the props dict. -/
def optEntry (e : Option (String × PayloadValue)) : List (String × PayloadValue) :=
  match e with
  | some kv => [kv]
  | none => []

/-- extract_sync_properties_from_master: build the Mirror properties dict
from the Master page, adapting to the Mirror schema; also threads the global
warning set missing_status_names explicitly.  Insertion order of the keys
follows the script: Status, Start Date, Due Date, Priority, Raised By,
Assigned To. -/
def extract_sync_properties_from_master (cfg : Config) (master_page : Page)
    (mirror_schema_types : List (String × String))
    (mirror_allowed : List (String × List String))
    (missing : List String) :
    List (String × PayloadValue) × List String :=
  let s := status_field cfg master_page mirror_schema_types mirror_allowed missing
  (optEntry s.1
    ++ optEntry (date_field master_page mirror_schema_types PROP_START_DATE)
    ++ optEntry (date_field master_page mirror_schema_types PROP_DUE_DATE)
    ++ optEntry (priority_field master_page mirror_schema_types)
    ++ optEntry (raised_by_field master_page mirror_schema_types)
    ++ optEntry (assigned_to_field master_page mirror_schema_types),
   s.2)

/-- to_title_property: title payload with content (text or ""). -/
def to_title_property (text : String) : PayloadValue :=
  .title (if text = "" then "" else text)

/-! ## Remote errors and the retry layer -/

/-- A remote API error (APIResponseError), identified by its HTTP status. -/
structure ApiError where
  status : Nat
  deriving DecidableEq

/-- Modelled from the spec (section 5 and 7): transient remote failures are
rate limiting or temporary unavailability, here HTTP 429 or a 5xx status;
anything else (malformed payload 400, permission denied 403, ...) is a
non-retryable error.  The script itself never classifies errors; this
predicate only serves to state claims about retryability. -/
def ApiError.transient (e : ApiError) : Bool :=
  e.status == 429 || 500 ≤ e.status

/-- Behaviour of the tenacity retry decorator used on the three wrappers:
retry(wait=wait_exponential(...), stop=stop_after_attempt(n)).  With no
retry predicate given, tenacity retries every raised exception; the wrapped
call is attempted up to n times and the last failure is raised after the
final attempt.  The remote call is modelled as a function from the attempt
number (starting at 1) to its outcome; the result carries the outcome and
the number of attempts actually made.  The wait times do not affect which
outcome is returned and are not modelled. -/
def retry_go {α : Type} (op : Nat → Except ApiError α) (attempt : Nat) :
    Nat → Except ApiError α × Nat
  | 0 => (op attempt, attempt)
  | 1 => (op attempt, attempt)
  | n + 2 =>
    match op attempt with
    | .ok a => (.ok a, attempt)
    | .error _ => retry_go op (attempt + 1) (n + 1)

/-- stop_after_attempt(5) on all three wrappers. -/
def MAX_RETRY_ATTEMPTS : Nat := 5

/-- query_database: notion.databases.query wrapped in the retry decorator.
The underlying remote call is abstracted as op. -/
def query_database {α : Type} (op : Nat → Except ApiError α) : Except ApiError α × Nat :=
  retry_go op 1 MAX_RETRY_ATTEMPTS

/-- create_page: notion.pages.create wrapped in the same retry decorator. -/
def create_page {α : Type} (op : Nat → Except ApiError α) : Except ApiError α × Nat :=
  retry_go op 1 MAX_RETRY_ATTEMPTS

/-- update_page: notion.pages.update wrapped in the same retry decorator. -/
def update_page {α : Type} (op : Nat → Except ApiError α) : Except ApiError α × Nat :=
  retry_go op 1 MAX_RETRY_ATTEMPTS

/-! ## The main sync loop -/

/-- One remote write issued by the loop: create_page(mirror_db, props) or
update_page(page_id, props). -/
inductive WriteCall where
  | create (parent_db_id : String) (properties : List (String × PayloadValue))
  | update (page_id : String) (properties : List (String × PayloadValue))
  deriving DecidableEq

/-- Observable state of a run: the three counters, the trace of write calls
issued so far (in order), and the warning set missing_status_names. -/
structure RunState where
  created : Nat
  updated : Nat
  skipped : Nat
  calls : List WriteCall
  missing : List String
  deriving DecidableEq

/-- Outcome of one write after its retry wrapper: none is success, some e is
the error that the exhausted wrapper raises into the loop. -/
def WriteOutcome : Type := WriteCall → Option ApiError

/-- Branching of one loop iteration on the index lookup result, after the
payload has been extracted (em) and the title is known non-empty.  A failing
write raises: the Except error carries the state at the moment of the raise
(counters not incremented, the failed call already issued). -/
def step_dispatch (mirror_db : String) (write : WriteOutcome) (st : RunState)
    (em : List (String × PayloadValue) × List String) (activity : String) :
    Option String → Except (ApiError × RunState) RunState
  | some mirror_id =>
    if em.1 ≠ [] then
      match write (.update mirror_id em.1) with
      | some e =>
          .error (e, { st with missing := em.2,
                               calls := st.calls ++ [.update mirror_id em.1] })
      | none =>
          .ok { st with missing := em.2, updated := st.updated + 1,
                        calls := st.calls ++ [.update mirror_id em.1] }
    else .ok { st with missing := em.2, updated := st.updated + 1 }
  | none =>
    match write (.create mirror_db ((PROP_ACTIVITY, to_title_property activity) :: em.1)) with
    | some e =>
        .error (e, { st with missing := em.2,
                             calls := st.calls ++ [.create mirror_db ((PROP_ACTIVITY, to_title_property activity) :: em.1)] })
    | none =>
        .ok { st with missing := em.2, created := st.created + 1,
                      calls := st.calls ++ [.create mirror_db ((PROP_ACTIVITY, to_title_property activity) :: em.1)] }

/-- One iteration of the for loop of main over a master page: skip on empty
title, else extract the payload, look the key up in the index and dispatch.
The create payload puts the Activity title first and then merges the
extracted properties (whose keys are disjoint from Activity). -/
def sync_step (cfg : Config) (mirror_db : String)
    (mirror_schema_types : List (String × String))
    (mirror_allowed : List (String × List String))
    (mirror_index : List (String × String))
    (write : WriteOutcome) (st : RunState) (mp : Page) :
    Except (ApiError × RunState) RunState :=
  if get_title_text mp PROP_ACTIVITY = "" then
    .ok { st with skipped := st.skipped + 1 }
  else
    step_dispatch mirror_db write st
      (extract_sync_properties_from_master cfg mp mirror_schema_types mirror_allowed st.missing)
      (get_title_text mp PROP_ACTIVITY)
      (dictGet mirror_index (py_lower (get_title_text mp PROP_ACTIVITY)))

/-- The for loop of main: iterate sync_step over the master pages; an
uncaught write error aborts the loop, leaving the remaining pages
unprocessed. -/
def sync_loop (cfg : Config) (mirror_db : String)
    (mirror_schema_types : List (String × String))
    (mirror_allowed : List (String × List String))
    (mirror_index : List (String × String))
    (write : WriteOutcome) (st : RunState) :
    List Page → Except (ApiError × RunState) RunState
  | [] => .ok st
  | mp :: rest =>
    match sync_step cfg mirror_db mirror_schema_types mirror_allowed mirror_index write st mp with
    | .error e => .error e
    | .ok st2 => sync_loop cfg mirror_db mirror_schema_types mirror_allowed mirror_index write st2 rest

/-- main, from the point where the pages and the mirror schema have been
fetched: build the index from the mirror pages and run the loop from the
zeroed counters and the empty warning set. -/
def run_sync (cfg : Config) (mirror_db : String)
    (master_pages mirror_pages : List Page)
    (mirror_schema_types : List (String × String))
    (mirror_allowed : List (String × List String))
    (write : WriteOutcome) : Except (ApiError × RunState) RunState :=
  sync_loop cfg mirror_db mirror_schema_types mirror_allowed
    (build_mirror_index_by_activity mirror_pages) write
    { created := 0, updated := 0, skipped := 0, calls := [], missing := [] }
    master_pages

end NotionSync

deriving instance DecidableEq for Except

namespace NotionSync

/-! ## Helper lemmas -/

theorem dictGet_cons {α : Type} (k k' : String) (v : α) (d : List (String × α)) :
    dictGet ((k', v) :: d) k = if k' = k then some v else dictGet d k := rfl

/-- The STATUS section with a status-typed mirror field and an invalid
post-rename label and no valid fallback clears the value and records the
label. -/
theorem status_field_clears (cfg : Config) (mp : Page)
    (types : List (String × String)) (allowed : List (String × List String))
    (missing : List String) (n : String)
    (hmt : dictGet types PROP_STATUS = some "status")
    (hname : apply_status_map cfg (read_choice_name (prop_or_none mp PROP_STATUS)) = some n)
    (hnal : n ∉ (dictGet allowed PROP_STATUS).getD [])
    (hfb : ∀ fb, cfg.STATUS_FALLBACK = some fb →
      ¬(fb ≠ "" ∧ fb ∈ (dictGet allowed PROP_STATUS).getD [])) :
    status_field cfg mp types allowed missing
      = (some (PROP_STATUS, .status none), setAdd missing n) := by
  unfold status_field
  rw [hmt]
  simp only [hname]
  rw [if_pos (And.intro trivial hnal)]
  cases hfbv : cfg.STATUS_FALLBACK with
  | none => rfl
  | some fb =>
    dsimp only
    rw [if_neg (hfb fb hfbv)]
    rfl

/-- The STATUS section with a status-typed mirror field and a valid
post-rename label emits that label and leaves the warning set unchanged. -/
theorem status_field_keeps (cfg : Config) (mp : Page)
    (types : List (String × String)) (allowed : List (String × List String))
    (missing : List String) (n : String)
    (hmt : dictGet types PROP_STATUS = some "status")
    (hname : apply_status_map cfg (read_choice_name (prop_or_none mp PROP_STATUS)) = some n)
    (hal : n ∈ (dictGet allowed PROP_STATUS).getD []) :
    status_field cfg mp types allowed missing
      = (some (PROP_STATUS, .status (truthy_str (some n))), missing) := by
  unfold status_field
  rw [hmt]
  simp only [hname]
  rw [if_neg (by intro h; exact h.2 hal)]
  simp [coerce_choice_payload]

/-- Shape of the START DATE and DUE DATE entries. -/
theorem date_field_shape (mp : Page) (types : List (String × String)) (p : String) :
    date_field mp types p = none ∨
    ∃ pv, date_field mp types p = some (p, pv) ∧ (dictGet types p).isSome := by
  unfold date_field
  split
  · exact Or.inl rfl
  · rename_i mt heq
    split
    · split
      · exact Or.inr ⟨_, rfl, by rw [heq]; rfl⟩
      · exact Or.inl rfl
    · exact Or.inl rfl

/-- Shape of the PRIORITY entry. -/
theorem priority_field_shape (mp : Page) (types : List (String × String)) :
    priority_field mp types = none ∨
    ∃ pv, priority_field mp types = some (PROP_PRIORITY, pv) ∧
      (dictGet types PROP_PRIORITY).isSome := by
  unfold priority_field
  split
  · exact Or.inl rfl
  · rename_i mt heq
    dsimp only
    split
    · exact Or.inr ⟨_, rfl, by rw [heq]; rfl⟩
    · split
      · exact Or.inr ⟨_, rfl, by rw [heq]; rfl⟩
      · exact Or.inl rfl

/-- Shape of the RAISED BY entry. -/
theorem raised_by_field_shape (mp : Page) (types : List (String × String)) :
    raised_by_field mp types = none ∨
    ∃ pv, raised_by_field mp types = some (PROP_RAISED_BY, pv) ∧
      (dictGet types PROP_RAISED_BY).isSome := by
  unfold raised_by_field
  split
  · exact Or.inl rfl
  · rename_i mt heq
    dsimp only
    split
    · exact Or.inr ⟨_, rfl, by rw [heq]; rfl⟩
    · split
      · exact Or.inr ⟨_, rfl, by rw [heq]; rfl⟩
      · exact Or.inl rfl

/-- Shape of the ASSIGNED TO entry. -/
theorem assigned_to_field_shape (mp : Page) (types : List (String × String)) :
    assigned_to_field mp types = none ∨
    ∃ pv, assigned_to_field mp types = some (PROP_ASSIGNED_TO, pv) ∧
      (dictGet types PROP_ASSIGNED_TO).isSome := by
  unfold assigned_to_field
  split
  · exact Or.inl rfl
  · rename_i mt heq
    dsimp only
    split
    · exact Or.inr ⟨_, rfl, by rw [heq]; rfl⟩
    · split
      · exact Or.inr ⟨_, rfl, by rw [heq]; rfl⟩
      · exact Or.inl rfl

/-- Shape of the STATUS entry. -/
theorem status_field_shape (cfg : Config) (mp : Page)
    (types : List (String × String)) (allowed : List (String × List String))
    (missing : List String) :
    (status_field cfg mp types allowed missing).1 = none ∨
    ∃ pv, (status_field cfg mp types allowed missing).1 = some (PROP_STATUS, pv) ∧
      (dictGet types PROP_STATUS).isSome := by
  unfold status_field
  split
  · exact Or.inl rfl
  · rename_i mt heq
    dsimp only
    split
    · exact Or.inr ⟨_, rfl, by rw [heq]; rfl⟩
    · exact Or.inl rfl

/-- Looking the Status key up in the extracted payload sees exactly the
STATUS entry (the other five sections bind different keys). -/
theorem dictGet_extract_status (cfg : Config) (mp : Page)
    (types : List (String × String)) (allowed : List (String × List String))
    (missing : List String) :
    dictGet (extract_sync_properties_from_master cfg mp types allowed missing).1 PROP_STATUS
      = Option.map Prod.snd (status_field cfg mp types allowed missing).1 := by
  unfold extract_sync_properties_from_master
  rcases status_field_shape cfg mp types allowed missing with hs | ⟨pv, hs, _⟩ <;>
    rcases date_field_shape mp types PROP_START_DATE with hd1 | ⟨pv1, hd1, _⟩ <;>
    rcases date_field_shape mp types PROP_DUE_DATE with hd2 | ⟨pv2, hd2, _⟩ <;>
    rcases priority_field_shape mp types with hp | ⟨pv3, hp, _⟩ <;>
    rcases raised_by_field_shape mp types with hr | ⟨pv4, hr, _⟩ <;>
    rcases assigned_to_field_shape mp types with ha | ⟨pv5, ha, _⟩ <;>
    (simp only [hs, hd1, hd2, hp, hr, ha, optEntry]
     simp [dictGet, PROP_STATUS, PROP_START_DATE, PROP_DUE_DATE, PROP_PRIORITY,
       PROP_RAISED_BY, PROP_ASSIGNED_TO])

/-- The warning set returned by the extraction is the one returned by the
STATUS section. -/
theorem extract_missing_eq (cfg : Config) (mp : Page)
    (types : List (String × String)) (allowed : List (String × List String))
    (missing : List String) :
    (extract_sync_properties_from_master cfg mp types allowed missing).2
      = (status_field cfg mp types allowed missing).2 := rfl

/-! ## C1 -/

/-- C1: for every Master record whose Status label, after the configured
rename, is non-empty and not in the Mirror allowed-labels set for a
status-typed destination, with no valid fallback configured, the mapped
payload carries a null Status value (a clear), and the label is added to
the run-level warning set exactly once per distinct offending label: the
set is unchanged when the label is already present, gains exactly the one
label otherwise, and its multiplicity ends at one. -/
theorem c1_invalid_status_cleared_and_warned_once (cfg : Config) (mp : Page)
    (types : List (String × String)) (allowed : List (String × List String))
    (missing : List String) (n : String)
    (hmt : dictGet types PROP_STATUS = some "status")
    (hname : apply_status_map cfg (read_choice_name (prop_or_none mp PROP_STATUS)) = some n)
    (hne : n ≠ "")
    (hnal : n ∉ (dictGet allowed PROP_STATUS).getD [])
    (hfb : ∀ fb, cfg.STATUS_FALLBACK = some fb →
      ¬(fb ≠ "" ∧ fb ∈ (dictGet allowed PROP_STATUS).getD []))
    (hdup : missing.count n ≤ 1) :
    dictGet (extract_sync_properties_from_master cfg mp types allowed missing).1 PROP_STATUS
      = some (.status none)
    ∧ (extract_sync_properties_from_master cfg mp types allowed missing).2
      = (if n ∈ missing then missing else missing ++ [n])
    ∧ ((extract_sync_properties_from_master cfg mp types allowed missing).2).count n = 1 := by
  have hs := status_field_clears cfg mp types allowed missing n hmt hname hnal hfb
  refine ⟨?_, ?_, ?_⟩
  · rw [dictGet_extract_status, hs]
    rfl
  · rw [extract_missing_eq, hs]
    rfl
  · rw [extract_missing_eq, hs]
    unfold setAdd
    split
    · rename_i hmem
      exact Nat.le_antisymm hdup (List.count_pos_iff.mpr hmem)
    · rename_i hmem
      rw [List.count_append, List.count_eq_zero_of_not_mem hmem,
        List.count_singleton_self]

/-- Witness for C1 at a concrete input: Master Status "Unknown", Mirror
Status options only "Done", no rename, no fallback, empty warning set. -/
theorem c1_witness :
    dictGet (extract_sync_properties_from_master ⟨[], none⟩
      ⟨"p1", [("Status", .select (some ⟨some "Unknown"⟩))]⟩
      [("Status", "status")] [("Status", ["Done"])] []).1 PROP_STATUS
      = some (.status none)
    ∧ (extract_sync_properties_from_master ⟨[], none⟩
      ⟨"p1", [("Status", .select (some ⟨some "Unknown"⟩))]⟩
      [("Status", "status")] [("Status", ["Done"])] []).2
      = (if "Unknown" ∈ ([] : List String) then [] else [] ++ ["Unknown"])
    ∧ ((extract_sync_properties_from_master ⟨[], none⟩
      ⟨"p1", [("Status", .select (some ⟨some "Unknown"⟩))]⟩
      [("Status", "status")] [("Status", ["Done"])] []).2).count "Unknown" = 1 :=
  c1_invalid_status_cleared_and_warned_once ⟨[], none⟩
    ⟨"p1", [("Status", .select (some ⟨some "Unknown"⟩))]⟩
    [("Status", "status")] [("Status", ["Done"])] [] "Unknown"
    (by decide) (by decide) (by decide) (by decide)
    (fun fb h => by cases h) (by decide)

/-! ## C8 -/

/-- C8 counterexample: with rename table mapping "Done" to "Finished" and
Mirror allowed labels containing exactly "Done", a Master Status "Done" is
already in the allowed set, yet the payload does not emit it unchanged: the
rename is applied first, "Finished" is invalid, the field is cleared and
the warning set records "Finished" (the post-rename label), not the source
label "Done".  This refutes the claim that the rename table is applied only
to labels outside the allowed set and that the warning records the source
label. -/
theorem c8_counterexample :
    extract_sync_properties_from_master ⟨[("Done", "Finished")], none⟩
      ⟨"p1", [("Status", .select (some ⟨some "Done"⟩))]⟩
      [("Status", "status")] [("Status", ["Done"])] []
      = ([(PROP_STATUS, .status none)], ["Finished"])
    ∧ "Done" ∈ ["Done"] ∧ ("Finished" : String) ≠ "Done" := by
  decide

/-- C8 amended: when mapping a Status value to a status-typed destination,
the rename table is applied unconditionally, before the allowed-labels
check; the subsequent behaviour depends only on the renamed label t, even
when the source label was itself allowed: if t is allowed it is emitted, if
t is not allowed (and no valid fallback is configured) the field is cleared
and the warning set records t, the post-rename label, not the source
label. -/
theorem c8_rename_precedes_validation (cfg : Config) (mp : Page)
    (types : List (String × String)) (allowed : List (String × List String))
    (missing : List String) (s t : String)
    (hmt : dictGet types PROP_STATUS = some "status")
    (hsrc : read_choice_name (prop_or_none mp PROP_STATUS) = some s)
    (hmap : dictGet cfg.STATUS_MAP s = some t)
    (ht : t ≠ "")
    (hfb : ∀ fb, cfg.STATUS_FALLBACK = some fb →
      ¬(fb ≠ "" ∧ fb ∈ (dictGet allowed PROP_STATUS).getD [])) :
    (t ∈ (dictGet allowed PROP_STATUS).getD [] →
      dictGet (extract_sync_properties_from_master cfg mp types allowed missing).1 PROP_STATUS
        = some (.status (some t))
      ∧ (extract_sync_properties_from_master cfg mp types allowed missing).2 = missing)
    ∧ (t ∉ (dictGet allowed PROP_STATUS).getD [] →
      dictGet (extract_sync_properties_from_master cfg mp types allowed missing).1 PROP_STATUS
        = some (.status none)
      ∧ (extract_sync_properties_from_master cfg mp types allowed missing).2
        = setAdd missing t) := by
  have hname : apply_status_map cfg (read_choice_name (prop_or_none mp PROP_STATUS)) = some t := by
    simp [apply_status_map, hsrc, hmap]
  constructor
  · intro hal
    have hk := status_field_keeps cfg mp types allowed missing t hmt hname hal
    constructor
    · rw [dictGet_extract_status, hk]
      simp [truthy_str, ht]
    · rw [extract_missing_eq, hk]
  · intro hnal
    have hc := status_field_clears cfg mp types allowed missing t hmt hname hnal hfb
    constructor
    · rw [dictGet_extract_status, hc]
      rfl
    · rw [extract_missing_eq, hc]

/-- Witness for C8 at a concrete input: rename "WIP" to "Nope" with allowed
labels only "Done": the renamed label decides the outcome and is the one
recorded. -/
theorem c8_witness :
    (("Nope" : String) ∈ (dictGet [("Status", ["Done"])] PROP_STATUS).getD [] →
      dictGet (extract_sync_properties_from_master ⟨[("WIP", "Nope")], none⟩
        ⟨"p1", [("Status", .status (some ⟨some "WIP"⟩))]⟩
        [("Status", "status")] [("Status", ["Done"])] []).1 PROP_STATUS
        = some (.status (some "Nope"))
      ∧ (extract_sync_properties_from_master ⟨[("WIP", "Nope")], none⟩
        ⟨"p1", [("Status", .status (some ⟨some "WIP"⟩))]⟩
        [("Status", "status")] [("Status", ["Done"])] []).2 = [])
    ∧ (("Nope" : String) ∉ (dictGet [("Status", ["Done"])] PROP_STATUS).getD [] →
      dictGet (extract_sync_properties_from_master ⟨[("WIP", "Nope")], none⟩
        ⟨"p1", [("Status", .status (some ⟨some "WIP"⟩))]⟩
        [("Status", "status")] [("Status", ["Done"])] []).1 PROP_STATUS
        = some (.status none)
      ∧ (extract_sync_properties_from_master ⟨[("WIP", "Nope")], none⟩
        ⟨"p1", [("Status", .status (some ⟨some "WIP"⟩))]⟩
        [("Status", "status")] [("Status", ["Done"])] []).2 = setAdd [] "Nope") :=
  c8_rename_precedes_validation ⟨[("WIP", "Nope")], none⟩
    ⟨"p1", [("Status", .status (some ⟨some "WIP"⟩))]⟩
    [("Status", "status")] [("Status", ["Done"])] [] "WIP" "Nope"
    (by decide) (by decide) (by decide) (by decide) (fun fb h => by cases h)

/-! ## C2 -/

/-- C2 counterexample: a remote call that always fails with HTTP 400
(malformed payload, a non-retryable condition) is attempted five times by
the retry wrapper before the error propagates — not once, as the claim
requires: retrying consumed the whole retry budget even though the error
was never retryable. -/
theorem c2_counterexample :
    ApiError.transient ⟨400⟩ = false
    ∧ query_database (fun _ => (.error ⟨400⟩ : Except ApiError Unit)) = (.error ⟨400⟩, 5)
    ∧ (5 : Nat) ≠ 1 := by
  refine ⟨rfl, ?_, by decide⟩
  rfl

/-- C2 amended: the retry wrapper does not distinguish transient from
non-retryable failures: a call that keeps failing with the same
non-retryable error is attempted MAX_RETRY_ATTEMPTS (five) times and the
error propagates only after the final attempt, the whole retry budget
consumed. -/
theorem c2_all_errors_retried {α : Type} (op : Nat → Except ApiError α) (e : ApiError)
    (hnr : e.transient = false) (hop : ∀ i, op i = .error e) :
    query_database op = (.error e, MAX_RETRY_ATTEMPTS) ∧ MAX_RETRY_ATTEMPTS = 5 := by
  refine ⟨?_, rfl⟩
  show retry_go op 1 5 = (.error e, 5)
  rw [show (5 : Nat) = 3 + 2 from rfl]
  unfold retry_go
  rw [hop 1]
  rw [show (3 + 1 : Nat) = 2 + 2 from rfl]
  unfold retry_go
  rw [hop 2]
  rw [show (2 + 1 : Nat) = 1 + 2 from rfl]
  unfold retry_go
  rw [hop 3]
  rw [show (1 + 1 : Nat) = 0 + 2 from rfl]
  unfold retry_go
  rw [hop 4]
  unfold retry_go
  rw [hop 5]

/-- Witness for C2 at a concrete input: permission denied (403), also
non-retryable, still consumes all five attempts. -/
theorem c2_witness :
    query_database (fun _ => (.error ⟨403⟩ : Except ApiError Unit))
      = (.error ⟨403⟩, MAX_RETRY_ATTEMPTS)
    ∧ MAX_RETRY_ATTEMPTS = 5 :=
  c2_all_errors_retried (fun _ => (.error ⟨403⟩ : Except ApiError Unit)) ⟨403⟩
    (by decide) (fun i => rfl)

/-! ## Step lemmas for the main loop -/

/-- A loop iteration over a page with empty title only counts it skipped. -/
theorem sync_step_skip (cfg : Config) (mirror_db : String)
    (types : List (String × String)) (allowed : List (String × List String))
    (index : List (String × String)) (write : WriteOutcome) (st : RunState) (mp : Page)
    (he : get_title_text mp PROP_ACTIVITY = "") :
    sync_step cfg mirror_db types allowed index write st mp
      = .ok { st with skipped := st.skipped + 1 } := by
  unfold sync_step
  rw [if_pos he]

/-- A loop iteration over a page whose key is in the index, with writes
succeeding, counts it updated and issues the update call exactly when the
extracted payload is non-empty. -/
theorem sync_step_of_match (cfg : Config) (mirror_db : String)
    (types : List (String × String)) (allowed : List (String × List String))
    (index : List (String × String)) (write : WriteOutcome) (st : RunState) (mp : Page)
    (mid : String)
    (hne : get_title_text mp PROP_ACTIVITY ≠ "")
    (hmid : dictGet index (py_lower (get_title_text mp PROP_ACTIVITY)) = some mid)
    (hw : ∀ c, write c = none) :
    sync_step cfg mirror_db types allowed index write st mp
      = .ok { st with
          missing := (extract_sync_properties_from_master cfg mp types allowed st.missing).2,
          updated := st.updated + 1,
          calls := st.calls ++
            (if (extract_sync_properties_from_master cfg mp types allowed st.missing).1 = []
             then []
             else [.update mid (extract_sync_properties_from_master cfg mp types allowed st.missing).1]) } := by
  unfold sync_step
  rw [if_neg hne, hmid]
  unfold step_dispatch
  simp only [hw]
  by_cases hp : (extract_sync_properties_from_master cfg mp types allowed st.missing).1 = []
  · simp [hp]
  · simp [hp]

/-- A loop iteration over a page whose key is not in the index, with writes
succeeding, issues exactly one create call (title first, then the extracted
payload) and counts it created. -/
theorem sync_step_of_create (cfg : Config) (mirror_db : String)
    (types : List (String × String)) (allowed : List (String × List String))
    (index : List (String × String)) (write : WriteOutcome) (st : RunState) (mp : Page)
    (hne : get_title_text mp PROP_ACTIVITY ≠ "")
    (hmid : dictGet index (py_lower (get_title_text mp PROP_ACTIVITY)) = none)
    (hw : ∀ c, write c = none) :
    sync_step cfg mirror_db types allowed index write st mp
      = .ok { st with
          missing := (extract_sync_properties_from_master cfg mp types allowed st.missing).2,
          created := st.created + 1,
          calls := st.calls ++
            [.create mirror_db
              ((PROP_ACTIVITY, to_title_property (get_title_text mp PROP_ACTIVITY))
                :: (extract_sync_properties_from_master cfg mp types allowed st.missing).1)] } := by
  unfold sync_step
  rw [if_neg hne, hmid]
  unfold step_dispatch
  simp only [hw]

/-! ## C3 -/

/-- C3 counterexample: two Master records with distinct fresh titles, and a
remote store on which every create fails (after its retries) with HTTP 500.
The run does not catch the failure: it aborts with the error after the first
record, having issued only that one call; the second record is never
processed, nothing is counted created or updated, and the run state has no
failed-record counter at all.  This refutes the claim that the orchestrator
catches the error, counts the record as failed and continues. -/
theorem c3_counterexample :
    run_sync ⟨[], none⟩ "mdb"
      [⟨"p1", [("Activity", .title [⟨some "Task A"⟩])]⟩,
       ⟨"p2", [("Activity", .title [⟨some "Task B"⟩])]⟩]
      [] [("Activity", "title")] []
      (fun c => match c with | .create _ _ => some ⟨500⟩ | .update _ _ => none)
      = .error (⟨500⟩,
          { created := 0, updated := 0, skipped := 0,
            calls := [.create "mdb" [("Activity", .title "Task A")]], missing := [] }) := by
  decide

/-- C3 amended: a create or update failure that escapes the retry wrapper is
not caught by the orchestrator: the loop aborts with that error at the
failing record, the remaining records are never processed (the result does
not depend on them), and no failed-record count is kept. -/
theorem c3_write_failure_aborts_run (cfg : Config) (mirror_db : String)
    (types : List (String × String)) (allowed : List (String × List String))
    (index : List (String × String)) (write : WriteOutcome) (st : RunState) (mp : Page)
    (rest : List Page) (ε : ApiError × RunState)
    (h : sync_step cfg mirror_db types allowed index write st mp = .error ε) :
    sync_loop cfg mirror_db types allowed index write st (mp :: rest) = .error ε := by
  unfold sync_loop
  rw [h]

/-- Witness for C3 at a concrete input: a failing update aborts the loop
even with further records pending. -/
theorem c3_witness :
    sync_loop ⟨[], none⟩ "mdb" [("Activity", "title"), ("Status", "select")] [] [("task a", "m1")]
      (fun _ => some ⟨500⟩)
      { created := 0, updated := 0, skipped := 0, calls := [], missing := [] }
      [⟨"p1", [("Activity", .title [⟨some "Task A"⟩]), ("Status", MasterProp.select (some ⟨some "x"⟩))]⟩,
       ⟨"p2", [("Activity", .title [⟨some "Task B"⟩])]⟩]
      = .error (⟨500⟩,
          { created := 0, updated := 0, skipped := 0,
            calls := [.update "m1" [("Status", PayloadValue.select (some "x"))]], missing := [] }) :=
  c3_write_failure_aborts_run ⟨[], none⟩ "mdb" [("Activity", "title"), ("Status", "select")] []
    [("task a", "m1")] (fun _ => some ⟨500⟩)
    { created := 0, updated := 0, skipped := 0, calls := [], missing := [] }
    ⟨"p1", [("Activity", .title [⟨some "Task A"⟩]), ("Status", MasterProp.select (some ⟨some "x"⟩))]⟩
    [⟨"p2", [("Activity", .title [⟨some "Task B"⟩])]⟩]
    (⟨500⟩,
      { created := 0, updated := 0, skipped := 0,
        calls := [.update "m1" [("Status", PayloadValue.select (some "x"))]], missing := [] })
    (by decide)

/-! ## C9 -/

/-- C9: a Master record whose normalized title matches an index entry is
counted as Updated even when the mapped payload is empty, and the update
call against the matched identity is issued exactly when the mapped payload
is non-empty. -/
theorem c9_matched_updated_call_iff_payload (cfg : Config) (mirror_db : String)
    (types : List (String × String)) (allowed : List (String × List String))
    (index : List (String × String)) (write : WriteOutcome) (st : RunState) (mp : Page)
    (mid : String)
    (hne : get_title_text mp PROP_ACTIVITY ≠ "")
    (hmid : dictGet index (py_lower (get_title_text mp PROP_ACTIVITY)) = some mid)
    (hw : ∀ c, write c = none) :
    ((extract_sync_properties_from_master cfg mp types allowed st.missing).1 = [] →
      sync_step cfg mirror_db types allowed index write st mp
        = .ok { st with
            missing := (extract_sync_properties_from_master cfg mp types allowed st.missing).2,
            updated := st.updated + 1 })
    ∧ ((extract_sync_properties_from_master cfg mp types allowed st.missing).1 ≠ [] →
      sync_step cfg mirror_db types allowed index write st mp
        = .ok { st with
            missing := (extract_sync_properties_from_master cfg mp types allowed st.missing).2,
            updated := st.updated + 1,
            calls := st.calls ++
              [.update mid (extract_sync_properties_from_master cfg mp types allowed st.missing).1] }) := by
  have h := sync_step_of_match cfg mirror_db types allowed index write st mp mid hne hmid hw
  constructor
  · intro hp
    rw [h, if_pos hp]
    simp
  · intro hp
    rw [h, if_neg hp]

/-- Witness for C9 at a concrete input: Mirror schema has only the title
field, so the payload is empty; the matched record is counted updated with
no update call issued. -/
theorem c9_witness :
    ((extract_sync_properties_from_master ⟨[], none⟩
        ⟨"p1", [("Activity", .title [⟨some "Task A"⟩])]⟩
        [("Activity", "title")] [] []).1 = [] →
      sync_step ⟨[], none⟩ "mdb" [("Activity", "title")] [] [("task a", "m1")] (fun _ => none)
        { created := 0, updated := 0, skipped := 0, calls := [], missing := [] }
        ⟨"p1", [("Activity", .title [⟨some "Task A"⟩])]⟩
        = .ok { created := 0, updated := 1, skipped := 0, calls := [], missing := [] })
    ∧ ((extract_sync_properties_from_master ⟨[], none⟩
        ⟨"p1", [("Activity", .title [⟨some "Task A"⟩])]⟩
        [("Activity", "title")] [] []).1 ≠ [] →
      sync_step ⟨[], none⟩ "mdb" [("Activity", "title")] [] [("task a", "m1")] (fun _ => none)
        { created := 0, updated := 0, skipped := 0, calls := [], missing := [] }
        ⟨"p1", [("Activity", .title [⟨some "Task A"⟩])]⟩
        = .ok { created := 0, updated := 1, skipped := 0,
                calls := [] ++ [WriteCall.update "m1" []],
                missing := [] }) :=
  c9_matched_updated_call_iff_payload ⟨[], none⟩ "mdb" [("Activity", "title")] []
    [("task a", "m1")] (fun _ => none)
    { created := 0, updated := 0, skipped := 0, calls := [], missing := [] }
    ⟨"p1", [("Activity", .title [⟨some "Task A"⟩])]⟩ "m1"
    (by decide) (by decide) (fun c => rfl)

/-! ## C4 -/

/-- C4 counterexample: a Master record whose raw source title is " Task A "
(surrounding whitespace, absent from the empty Mirror index) is created
with payload title "Task A": the title written is the stripped text, not
the non-normalized source title.  This refutes the claim that the create
payload sets the Title to the non-normalized source title. -/
theorem c4_counterexample :
    run_sync ⟨[], none⟩ "mdb" [⟨"p1", [("Activity", .title [⟨some " Task A "⟩])]⟩] []
      [("Activity", "title")] [] (fun _ => none)
      = .ok { created := 1, updated := 0, skipped := 0,
              calls := [.create "mdb" [("Activity", .title "Task A")]], missing := [] }
    ∧ ("Task A" : String) ≠ " Task A " := by
  decide

/-- C4 amended: a Master record whose stripped title is non-empty and whose
lower-cased key is absent from the Mirror index is counted created and
issues exactly one write, a Create whose Title field is the original-case
but whitespace-stripped source title text. -/
theorem c4_create_title_stripped_original_case (cfg : Config) (mirror_db : String)
    (types : List (String × String)) (allowed : List (String × List String))
    (index : List (String × String)) (write : WriteOutcome) (st : RunState) (mp : Page)
    (parts : List TitlePart)
    (hparts : prop_or_none mp PROP_ACTIVITY = some (.title parts))
    (hne : py_strip (String.join (parts.map (fun t => t.plain_text.getD ""))) ≠ "")
    (hmid : dictGet index
      (py_lower (py_strip (String.join (parts.map (fun t => t.plain_text.getD ""))))) = none)
    (hw : ∀ c, write c = none) :
    sync_step cfg mirror_db types allowed index write st mp
      = .ok { st with
          missing := (extract_sync_properties_from_master cfg mp types allowed st.missing).2,
          created := st.created + 1,
          calls := st.calls ++
            [.create mirror_db
              ((PROP_ACTIVITY,
                  PayloadValue.title (py_strip (String.join (parts.map (fun t => t.plain_text.getD "")))))
                :: (extract_sync_properties_from_master cfg mp types allowed st.missing).1)] } := by
  have hti : get_title_text mp PROP_ACTIVITY
      = py_strip (String.join (parts.map (fun t => t.plain_text.getD ""))) := by
    unfold get_title_text
    rw [hparts]
  rw [← hti] at hne hmid ⊢
  rw [sync_step_of_create cfg mirror_db types allowed index write st mp hne hmid hw]
  rw [to_title_property, if_neg hne]

/-- Witness for C4 at a concrete input. -/
theorem c4_witness :
    sync_step ⟨[], none⟩ "mdb" [("Activity", "title")] [] [] (fun _ => none)
      { created := 0, updated := 0, skipped := 0, calls := [], missing := [] }
      ⟨"p1", [("Activity", .title [⟨some " Task A "⟩])]⟩
      = .ok { created := 1, updated := 0, skipped := 0,
              calls := [] ++ [.create "mdb" [("Activity",
                PayloadValue.title (py_strip (String.join [" Task A "])))]],
              missing := [] } :=
  c4_create_title_stripped_original_case ⟨[], none⟩ "mdb" [("Activity", "title")] [] []
    (fun _ => none)
    { created := 0, updated := 0, skipped := 0, calls := [], missing := [] }
    ⟨"p1", [("Activity", .title [⟨some " Task A "⟩])]⟩ [⟨some " Task A "⟩]
    (by decide) (by decide) (by decide) (fun c => rfl)

/-! ## C5 -/

/-- C5 counterexample: a Master record titled " TASK A " matches the Mirror
record "task a" (shown by the index lookup), the run counts it updated, yet
it issues no write at all, because the mapped payload is empty (the Mirror
schema holds only the title field).  This refutes the claim that every
matched record gets an Update issued. -/
theorem c5_counterexample :
    dictGet (build_mirror_index_by_activity [⟨"m1", [("Activity", .title [⟨some "task a"⟩])]⟩])
      (py_lower (get_title_text ⟨"p1", [("Activity", .title [⟨some " TASK A "⟩])]⟩ PROP_ACTIVITY))
      = some "m1"
    ∧ run_sync ⟨[], none⟩ "mdb" [⟨"p1", [("Activity", .title [⟨some " TASK A "⟩])]⟩]
        [⟨"m1", [("Activity", .title [⟨some "task a"⟩])]⟩]
        [("Activity", "title")] [] (fun _ => none)
      = .ok { created := 0, updated := 1, skipped := 0, calls := [], missing := [] } := by
  decide

/-- C5 amended: natural-key matching is case-insensitive and
whitespace-trimmed — a Master record whose stripped, lower-cased title
equals that of a Mirror record resolves to that record in the index — and
for a matched record the orchestrator never issues a Create and issues an
Update, against exactly the matched identity, precisely when the mapped
payload is non-empty. -/
theorem c5_match_normalized_update_only (cfg : Config) (mirror_db : String)
    (types : List (String × String)) (allowed : List (String × List String))
    (write : WriteOutcome) (st : RunState) (mp q : Page)
    (hq : get_title_text q PROP_ACTIVITY ≠ "")
    (hm : py_lower (get_title_text mp PROP_ACTIVITY) = py_lower (get_title_text q PROP_ACTIVITY))
    (hne : get_title_text mp PROP_ACTIVITY ≠ "")
    (hw : ∀ c, write c = none) :
    dictGet (build_mirror_index_by_activity [q]) (py_lower (get_title_text mp PROP_ACTIVITY))
      = some q.id
    ∧ sync_step cfg mirror_db types allowed (build_mirror_index_by_activity [q]) write st mp
      = .ok { st with
          missing := (extract_sync_properties_from_master cfg mp types allowed st.missing).2,
          updated := st.updated + 1,
          calls := st.calls ++
            (if (extract_sync_properties_from_master cfg mp types allowed st.missing).1 = []
             then []
             else [.update q.id (extract_sync_properties_from_master cfg mp types allowed st.missing).1]) } := by
  have hidx : build_mirror_index_by_activity [q]
      = [(py_lower (get_title_text q PROP_ACTIVITY), q.id)] := by
    unfold build_mirror_index_by_activity
    simp [hq, dict_set, dictGet]
  have hlook : dictGet (build_mirror_index_by_activity [q])
      (py_lower (get_title_text mp PROP_ACTIVITY)) = some q.id := by
    rw [hidx, hm]
    simp [dictGet]
  exact ⟨hlook,
    sync_step_of_match cfg mirror_db types allowed (build_mirror_index_by_activity [q])
      write st mp q.id hne hlook hw⟩

/-- Witness for C5 at a concrete input: "fix bug" in the Mirror and
" FIX BUG " in the Master resolve to the same record. -/
theorem c5_witness :
    dictGet (build_mirror_index_by_activity [⟨"m7", [("Activity", .title [⟨some "fix bug"⟩])]⟩])
      (py_lower (get_title_text ⟨"p9", [("Activity", .title [⟨some " FIX BUG "⟩])]⟩ PROP_ACTIVITY))
      = some "m7"
    ∧ sync_step ⟨[], none⟩ "mdb" [("Activity", "title")] []
        (build_mirror_index_by_activity [⟨"m7", [("Activity", .title [⟨some "fix bug"⟩])]⟩])
        (fun _ => none)
        { created := 0, updated := 0, skipped := 0, calls := [], missing := [] }
        ⟨"p9", [("Activity", .title [⟨some " FIX BUG "⟩])]⟩
      = .ok { created := 0, updated := 1, skipped := 0, calls := [] ++ [], missing := [] } :=
  c5_match_normalized_update_only ⟨[], none⟩ "mdb" [("Activity", "title")] [] (fun _ => none)
    { created := 0, updated := 0, skipped := 0, calls := [], missing := [] }
    ⟨"p9", [("Activity", .title [⟨some " FIX BUG "⟩])]⟩
    ⟨"m7", [("Activity", .title [⟨some "fix bug"⟩])]⟩
    (by decide) (by decide) (by decide) (fun c => rfl)

/-! ## C10 -/

/-- C10: a Master record whose Activity property is missing, is not of
title type, or whose text strips to the empty string, is handled exactly
like an empty-title record: it is counted skipped with no write issued, and
a Mirror page with such a title contributes nothing to the Mirror index. -/
theorem c10_degenerate_title_skipped_and_unindexed (cfg : Config) (mirror_db : String)
    (types : List (String × String)) (allowed : List (String × List String))
    (index : List (String × String)) (write : WriteOutcome) (st : RunState) (mp : Page)
    (ps qs : List Page)
    (h : prop_or_none mp PROP_ACTIVITY = none
      ∨ (∃ p, prop_or_none mp PROP_ACTIVITY = some p ∧ ∀ parts, p ≠ MasterProp.title parts)
      ∨ (∃ parts, prop_or_none mp PROP_ACTIVITY = some (.title parts)
          ∧ py_strip (String.join (parts.map (fun t => t.plain_text.getD ""))) = "")) :
    sync_step cfg mirror_db types allowed index write st mp
      = .ok { st with skipped := st.skipped + 1 }
    ∧ build_mirror_index_by_activity (ps ++ mp :: qs)
      = build_mirror_index_by_activity (ps ++ qs) := by
  have he : get_title_text mp PROP_ACTIVITY = "" := by
    rcases h with h | ⟨p, hp, hnp⟩ | ⟨parts, hp, hstrip⟩
    · unfold get_title_text
      rw [h]
    · unfold get_title_text
      rw [hp]
      cases p <;> first | rfl | exact absurd rfl (hnp _)
    · unfold get_title_text
      rw [hp]
      exact hstrip
  refine ⟨sync_step_skip cfg mirror_db types allowed index write st mp he, ?_⟩
  unfold build_mirror_index_by_activity
  rw [List.foldl_append, List.foldl_append, List.foldl_cons]
  congr 1
  simp [he]

/-- Witness for C10 at a concrete input: a whitespace-only title. -/
theorem c10_witness :
    sync_step ⟨[], none⟩ "mdb" [("Activity", "title")] [] [] (fun _ => none)
      { created := 0, updated := 0, skipped := 0, calls := [], missing := [] }
      ⟨"p1", [("Activity", .title [⟨some "   "⟩])]⟩
      = .ok { created := 0, updated := 0, skipped := 1, calls := [], missing := [] }
    ∧ build_mirror_index_by_activity ([] ++ ⟨"p1", [("Activity", .title [⟨some "   "⟩])]⟩ :: [])
      = build_mirror_index_by_activity ([] ++ []) :=
  c10_degenerate_title_skipped_and_unindexed ⟨[], none⟩ "mdb" [("Activity", "title")] [] []
    (fun _ => none)
    { created := 0, updated := 0, skipped := 0, calls := [], missing := [] }
    ⟨"p1", [("Activity", .title [⟨some "   "⟩])]⟩ [] []
    (Or.inr (Or.inr ⟨[⟨some "   "⟩], by decide, by decide⟩))

/-! ## C6 -/

/-- An optional field entry whose shape is known contributes only keys that
the schema declares. -/
theorem all_optEntry_isSome (types : List (String × String))
    (e : Option (String × PayloadValue)) (K : String)
    (h : e = none ∨ ∃ pv, e = some (K, pv) ∧ (dictGet types K).isSome) :
    (optEntry e).all (fun kv => (dictGet types kv.1).isSome) = true := by
  rcases h with he | ⟨pv, he, hK⟩
  · simp [he, optEntry]
  · simp [he, optEntry, hK]

/-- C6: every key of the update payload built from a Master record is a
field declared in the Mirror schema, and, provided the configured title
field name is itself declared there (the script requires the configured
property names to match the databases), so is every key of the create
payload (title entry included); Master-only fields are silently dropped. -/
theorem c6_payload_keys_declared_in_schema (cfg : Config) (mp : Page)
    (types : List (String × String)) (allowed : List (String × List String))
    (missing : List String) (s : String)
    (htitle : (dictGet types PROP_ACTIVITY).isSome) :
    ((extract_sync_properties_from_master cfg mp types allowed missing).1.all
      (fun kv => (dictGet types kv.1).isSome)) = true
    ∧ (((PROP_ACTIVITY, to_title_property s)
        :: (extract_sync_properties_from_master cfg mp types allowed missing).1).all
      (fun kv => (dictGet types kv.1).isSome)) = true := by
  have h1 : ((extract_sync_properties_from_master cfg mp types allowed missing).1.all
      (fun kv => (dictGet types kv.1).isSome)) = true := by
    unfold extract_sync_properties_from_master
    dsimp only
    rw [List.all_append, List.all_append, List.all_append, List.all_append, List.all_append]
    rw [all_optEntry_isSome types _ PROP_STATUS (status_field_shape cfg mp types allowed missing),
        all_optEntry_isSome types _ PROP_START_DATE (date_field_shape mp types PROP_START_DATE),
        all_optEntry_isSome types _ PROP_DUE_DATE (date_field_shape mp types PROP_DUE_DATE),
        all_optEntry_isSome types _ PROP_PRIORITY (priority_field_shape mp types),
        all_optEntry_isSome types _ PROP_RAISED_BY (raised_by_field_shape mp types),
        all_optEntry_isSome types _ PROP_ASSIGNED_TO (assigned_to_field_shape mp types)]
    rfl
  refine ⟨h1, ?_⟩
  rw [List.all_cons, h1, htitle]
  rfl

/-- Witness for C6 at a concrete input: a Master record with Status, a
date, and people, against a Mirror schema lacking the date and people
fields. -/
theorem c6_witness :
    ((extract_sync_properties_from_master ⟨[], none⟩
      ⟨"p1", [("Status", MasterProp.select (some ⟨some "Done"⟩)),
              ("Start Date", MasterProp.date (some ⟨"2024-01-01", none⟩)),
              ("Assigned To", MasterProp.people [⟨some "Ana", "u1"⟩])]⟩
      [("Activity", "title"), ("Status", "select")] [] []).1.all
      (fun kv => (dictGet [("Activity", "title"), ("Status", "select")] kv.1).isSome)) = true
    ∧ (((PROP_ACTIVITY, to_title_property "Task A")
        :: (extract_sync_properties_from_master ⟨[], none⟩
      ⟨"p1", [("Status", MasterProp.select (some ⟨some "Done"⟩)),
              ("Start Date", MasterProp.date (some ⟨"2024-01-01", none⟩)),
              ("Assigned To", MasterProp.people [⟨some "Ana", "u1"⟩])]⟩
      [("Activity", "title"), ("Status", "select")] [] []).1).all
      (fun kv => (dictGet [("Activity", "title"), ("Status", "select")] kv.1).isSome)) = true :=
  c6_payload_keys_declared_in_schema ⟨[], none⟩
    ⟨"p1", [("Status", MasterProp.select (some ⟨some "Done"⟩)),
            ("Start Date", MasterProp.date (some ⟨"2024-01-01", none⟩)),
            ("Assigned To", MasterProp.people [⟨some "Ana", "u1"⟩])]⟩
    [("Activity", "title"), ("Status", "select")] [] [] "Task A"
    (by decide)

/-! ## C7 -/

/-- Looking a date key up in the extracted payload sees exactly the
corresponding date entry (the other sections bind different keys). -/
theorem dictGet_extract_date (cfg : Config) (mp : Page)
    (types : List (String × String)) (allowed : List (String × List String))
    (missing : List String) (pname : String)
    (hp : pname = PROP_START_DATE ∨ pname = PROP_DUE_DATE) :
    dictGet (extract_sync_properties_from_master cfg mp types allowed missing).1 pname
      = Option.map Prod.snd (date_field mp types pname) := by
  rcases hp with hp | hp <;> subst hp <;>
    unfold extract_sync_properties_from_master <;>
    (rcases status_field_shape cfg mp types allowed missing with hs | ⟨pv, hs, _⟩ <;>
     rcases date_field_shape mp types PROP_START_DATE with hd1 | ⟨pv1, hd1, _⟩ <;>
     rcases date_field_shape mp types PROP_DUE_DATE with hd2 | ⟨pv2, hd2, _⟩ <;>
     rcases priority_field_shape mp types with hpr | ⟨pv3, hpr, _⟩ <;>
     rcases raised_by_field_shape mp types with hr | ⟨pv4, hr, _⟩ <;>
     rcases assigned_to_field_shape mp types with ha | ⟨pv5, ha, _⟩ <;>
     (simp only [hs, hd1, hd2, hpr, hr, ha, optEntry]
      simp [dictGet, PROP_STATUS, PROP_START_DATE, PROP_DUE_DATE, PROP_PRIORITY,
        PROP_RAISED_BY, PROP_ASSIGNED_TO]))

/-- C7 counterexample: the Master Start Date property exists with type date
but a null value — the source has no date value — and the Mirror declares
the field with type date; the claim requires the field to be omitted from
the payload, but the script emits an explicit null date, clearing the
destination value instead of leaving it untouched. -/
theorem c7_counterexample :
    (extract_sync_properties_from_master ⟨[], none⟩ ⟨"p1", [("Start Date", .date none)]⟩
      [("Start Date", "date")] [] []).1
      = [(PROP_START_DATE, .date none)]
    ∧ dictGet (extract_sync_properties_from_master ⟨[], none⟩
        ⟨"p1", [("Start Date", .date none)]⟩ [("Start Date", "date")] [] []).1
        PROP_START_DATE ≠ none := by
  decide

/-- C7 amended: for the two date fields, the mapper passes the date value
through unchanged — including the null value, which is emitted as an
explicit null that clears the destination field rather than being omitted —
and the field is omitted from the payload when the destination lacks the
field, declares it with a non-date type, or the Master property is absent
or not a date property. -/
theorem c7_date_passthrough_and_omission (cfg : Config) (mp : Page)
    (types : List (String × String)) (allowed : List (String × List String))
    (missing : List String) (pname : String) (v : Option DateObj) (mt : String)
    (hp : pname = PROP_START_DATE ∨ pname = PROP_DUE_DATE) :
    (dictGet types pname = some "date" → prop_or_none mp pname = some (.date v) →
      dictGet (extract_sync_properties_from_master cfg mp types allowed missing).1 pname
        = some (.date v))
    ∧ (dictGet types pname = none →
      dictGet (extract_sync_properties_from_master cfg mp types allowed missing).1 pname
        = none)
    ∧ (dictGet types pname = some mt → mt ≠ "date" →
      dictGet (extract_sync_properties_from_master cfg mp types allowed missing).1 pname
        = none)
    ∧ (prop_or_none mp pname = none →
      dictGet (extract_sync_properties_from_master cfg mp types allowed missing).1 pname
        = none)
    ∧ (prop_or_none mp pname = some MasterProp.other →
      dictGet (extract_sync_properties_from_master cfg mp types allowed missing).1 pname
        = none) := by
  rw [dictGet_extract_date cfg mp types allowed missing pname hp]
  refine ⟨?_, ?_, ?_, ?_, ?_⟩
  · intro h1 h2
    simp [date_field, h1, h2]
  · intro h1
    simp [date_field, h1]
  · intro h1 h2
    unfold date_field
    rw [h1]
    cases hq : prop_or_none mp pname with
    | none => rfl
    | some q => cases q <;> simp [h2]
  · intro h1
    unfold date_field
    cases dictGet types pname with
    | none => rfl
    | some mt2 =>
      rw [h1]
      rfl
  · intro h1
    unfold date_field
    cases dictGet types pname with
    | none => rfl
    | some mt2 =>
      rw [h1]
      rfl

/-- Witness for C7 at a concrete input: a Due Date with a concrete range is
passed through unchanged. -/
theorem c7_witness :
    (dictGet [("Due Date", "date")] PROP_DUE_DATE = some "date" →
      prop_or_none ⟨"p1", [("Due Date", .date (some ⟨"2024-05-01", some "2024-05-09"⟩))]⟩
        PROP_DUE_DATE = some (.date (some ⟨"2024-05-01", some "2024-05-09"⟩)) →
      dictGet (extract_sync_properties_from_master ⟨[], none⟩
        ⟨"p1", [("Due Date", .date (some ⟨"2024-05-01", some "2024-05-09"⟩))]⟩
        [("Due Date", "date")] [] []).1 PROP_DUE_DATE
        = some (.date (some ⟨"2024-05-01", some "2024-05-09"⟩)))
    ∧ (dictGet [("Due Date", "date")] PROP_DUE_DATE = none →
      dictGet (extract_sync_properties_from_master ⟨[], none⟩
        ⟨"p1", [("Due Date", .date (some ⟨"2024-05-01", some "2024-05-09"⟩))]⟩
        [("Due Date", "date")] [] []).1 PROP_DUE_DATE = none)
    ∧ (dictGet [("Due Date", "date")] PROP_DUE_DATE = some "select" → "select" ≠ "date" →
      dictGet (extract_sync_properties_from_master ⟨[], none⟩
        ⟨"p1", [("Due Date", .date (some ⟨"2024-05-01", some "2024-05-09"⟩))]⟩
        [("Due Date", "date")] [] []).1 PROP_DUE_DATE = none)
    ∧ (prop_or_none ⟨"p1", [("Due Date", .date (some ⟨"2024-05-01", some "2024-05-09"⟩))]⟩
        PROP_DUE_DATE = none →
      dictGet (extract_sync_properties_from_master ⟨[], none⟩
        ⟨"p1", [("Due Date", .date (some ⟨"2024-05-01", some "2024-05-09"⟩))]⟩
        [("Due Date", "date")] [] []).1 PROP_DUE_DATE = none)
    ∧ (prop_or_none ⟨"p1", [("Due Date", .date (some ⟨"2024-05-01", some "2024-05-09"⟩))]⟩
        PROP_DUE_DATE = some MasterProp.other →
      dictGet (extract_sync_properties_from_master ⟨[], none⟩
        ⟨"p1", [("Due Date", .date (some ⟨"2024-05-01", some "2024-05-09"⟩))]⟩
        [("Due Date", "date")] [] []).1 PROP_DUE_DATE = none) :=
  c7_date_passthrough_and_omission ⟨[], none⟩
    ⟨"p1", [("Due Date", .date (some ⟨"2024-05-01", some "2024-05-09"⟩))]⟩
    [("Due Date", "date")] [] [] PROP_DUE_DATE
    (some ⟨"2024-05-01", some "2024-05-09"⟩) "select" (Or.inr rfl)

end NotionSync
